import Mathlib

/-!
Verification of the authentication core of the Modular-MVC boilerplate
(`src/modules/auth/service/auth-service.ts` together with
`src/modules/user/repository/user-repository.ts`), as a shallow embedding.

The service's injected collaborators (hasher, hash comparer, encrypter,
refresh-token generator, clock, configuration) are modelled as an
environment record `Env`; the Prisma-backed store is a `DB` value threaded
through each operation.  Every operation returns `Except HttpError α × DB`:
the thrown-or-returned outcome together with the final persistent state.
-/

namespace AuthCore

/-- Prisma `User` model: `id`, `email`, `password` (hash), `name`
(fields as used by the service and shown by the test fixture
`mockUserModel`). -/
structure User where
  id : Nat
  email : String
  password : String
  name : String
deriving DecidableEq, Repr

/-- Prisma `RefreshToken` model: `id`, unique `token` string, owning
`userId`, absolute `expiresAt`, `revoked` flag (defaults to `false` on
creation).  Timestamps are integers (milliseconds since epoch). -/
structure RefreshTokenRecord where
  id : Nat
  token : String
  userId : Nat
  expiresAt : Int
  revoked : Bool
deriving DecidableEq, Repr

/-- The persistent state behind `UserRepository`: the `user` table and the
`refreshToken` table. -/
structure DB where
  users : List User
  tokens : List RefreshTokenRecord
deriving DecidableEq, Repr

/-- Embeds `SignUpParams` of `auth-service.ts`. -/
structure SignUpParams where
  email : String
  password : String
  confirmPassword : String
  name : String
deriving DecidableEq, Repr

/-- Embeds `LoginParams` of `auth-service.ts`. -/
structure LoginParams where
  email : String
  password : String
deriving DecidableEq, Repr

/-- The user object login returns: the stored record with the `password`
field removed by destructuring (`const { password: pass, ...userToReturn }`). -/
structure PublicUser where
  id : Nat
  email : String
  name : String
deriving DecidableEq, Repr

/-- Embeds `HttpError` of `common/errors/http-errors` (the module's code
is among the sources): an `Error` carrying an HTTP `statusCode` and a
`message`. -/
structure HttpError where
  statusCode : Nat
  message : String
deriving DecidableEq, Repr

/-- Embeds `BadRequestError`: `HttpError` with status 400 and the given
message. -/
def BadRequestError (message : String) : HttpError :=
  { statusCode := 400, message := message }

/-- Embeds `UnauthorizedError`: `HttpError` with status 401; the
constructor's message is optional and `message || 'Unauthorized'` makes
a missing or falsy (empty) message fall back to the default
`'Unauthorized'`. -/
def UnauthorizedError (message : Option String) : HttpError :=
  { statusCode := 401,
    message := match message with
      | some m => if m = "" then "Unauthorized" else m
      | none => "Unauthorized" }

/-- Embeds `NotFoundError`: `HttpError` with status 404 and the given
message. -/
def NotFoundError (message : String) : HttpError :=
  { statusCode := 404, message := message }

/-- The password-reset token signed by `requestPasswordReset`: payload
`{email, id}` plus, abstracting the JWT library, the signing secret and
the expiry the signature commits to.  Verification (`Decrypter.decrypt`)
succeeds exactly when it is given the same secret and the token is not
expired. -/
structure ResetToken where
  email : String
  id : Nat
  secret : String
  expiresAt : Int
deriving DecidableEq, Repr

/-- The injected collaborators and configuration of `AuthService`, made
explicit: `hash`/`compare` (bcrypt adapter), `encryptAccess` (the
`Encrypter` applied to `{id}` with the default secret and lifetime),
`generate` (the opaque string the `RefreshTokenGenerator` produces for
this call), the current clock reading `now` (`new Date()` /
`Date.now()`), the server secret `JWT_SECRET`, the configured refresh
lifetime `REFRESH_EXPIRES`, the reset-token lifetime, and the ids the
store assigns to freshly created rows. -/
structure Env where
  hash : String → String
  compare : String → String → Bool
  encryptAccess : Nat → String
  generate : String
  now : Int
  jwtSecret : String
  refreshExpires : Int
  resetExpiresIn : Int
  freshUserId : Nat
  freshTokenId : Nat

namespace DB

/-- Embeds `UserRepository.getByEmail`: `prisma.user.findUnique({ where: { email } })`. -/
def getByEmail (email : String) (db : DB) : Option User :=
  db.users.find? (fun u => u.email = email)

/-- Modelled from the spec: `getUserById(id) -> User | absent` of the
persistence contract (§6).  `resetPassword` calls
`userRepository.getById`, but that repository method's file revision is
not among the provided sources. -/
def getById (id : Nat) (db : DB) : Option User :=
  db.users.find? (fun u => u.id = id)

/-- Embeds `UserRepository.create`: drops `confirmPassword` and inserts the row;
the store assigns the id. -/
def createUser (data : SignUpParams) (hashedPassword : String) (freshId : Nat)
    (db : DB) : User × DB :=
  let u : User :=
    { id := freshId, email := data.email, password := hashedPassword,
      name := data.name }
  (u, { db with users := db.users ++ [u] })

/-- Modelled from the spec: `updateUser(id, partialFields) -> User` of the
persistence contract (§6), here at the single call site
`update(user.id, { password: hashedPassword })`: overwrite the `password`
field of the rows with that id, leaving every other row and field
unchanged. -/
def updatePassword (id : Nat) (newHash : String) (db : DB) : DB :=
  { db with
    users := db.users.map (fun u =>
      if u.id = id then { u with password := newHash } else u) }

/-- Embeds `UserRepository.saveRefreshToken`: create a refresh-token row with
`expiresAt = now + REFRESH_EXPIRES`; `revoked` defaults to `false`. -/
def saveRefreshToken (token : String) (userId : Nat) (env : Env) (db : DB) : DB :=
  { db with
    tokens := db.tokens ++
      [{ id := env.freshTokenId, token := token, userId := userId,
         expiresAt := env.now + env.refreshExpires, revoked := false }] }

/-- Embeds `UserRepository.getRefreshTokenWithUser`:
`prisma.refreshToken.findUnique({ where: { token } })` (the included
`user` join is recovered from `userId`; `token` is unique). -/
def getRefreshTokenWithUser (token : String) (db : DB) :
    Option RefreshTokenRecord :=
  db.tokens.find? (fun r => r.token = token)

/-- Embeds `UserRepository.deleteRefreshToken`:
`prisma.refreshToken.delete({ where: { id } })`. -/
def deleteRefreshToken (id : Nat) (db : DB) : DB :=
  { db with tokens := db.tokens.filter (fun r => r.id ≠ id) }

/-- Embeds `UserRepository.revokeAllUserRefreshTokens`:
`updateMany({ where: { userId, revoked: false }, data: { revoked: true } })`. -/
def revokeAllUserRefreshTokens (userId : Nat) (db : DB) : DB :=
  { db with
    tokens := db.tokens.map (fun r =>
      if r.userId = userId ∧ r.revoked = false then { r with revoked := true }
      else r) }

end DB

/-- Embeds `AuthService.signUp`. -/
def signUp (env : Env) (data : SignUpParams) (db : DB) :
    Except HttpError User × DB :=
  match DB.getByEmail data.email db with
  | some _ => (.error (BadRequestError "Email is already in use"), db)
  | none =>
    let hashedPassword := env.hash data.password
    let (createdUser, db') := DB.createUser data hashedPassword env.freshUserId db
    (.ok createdUser, db')

/-- What `AuthService.login` returns on success. -/
structure LoginResult where
  accessToken : String
  refreshToken : String
  user : PublicUser
deriving DecidableEq, Repr

/-- Embeds `AuthService.login`. -/
def login (env : Env) (data : LoginParams) (db : DB) :
    Except HttpError LoginResult × DB :=
  match DB.getByEmail data.email db with
  | none => (.error (UnauthorizedError none), db)
  | some user =>
    if env.compare data.password user.password then
      let accessToken := env.encryptAccess user.id
      let refreshToken := env.generate
      let db' := DB.saveRefreshToken refreshToken user.id env db
      (.ok { accessToken := accessToken, refreshToken := refreshToken,
             user := { id := user.id, email := user.email, name := user.name } },
       db')
    else
      (.error (UnauthorizedError none), db)

/-- What `AuthService.refreshAccessToken` returns on success. -/
structure RefreshResult where
  accessToken : String
  refreshToken : String
deriving DecidableEq, Repr

/-- Embeds `AuthService.refreshAccessToken`. -/
def refreshAccessToken (env : Env) (token : String) (db : DB) :
    Except HttpError RefreshResult × DB :=
  match DB.getRefreshTokenWithUser token db with
  | none => (.error (UnauthorizedError none), db)
  | some storedToken =>
    if storedToken.revoked then (.error (UnauthorizedError none), db)
    else if storedToken.expiresAt < env.now then
      (.error (UnauthorizedError none), DB.deleteRefreshToken storedToken.id db)
    else
      let db' := DB.revokeAllUserRefreshTokens storedToken.userId db
      let accessToken := env.encryptAccess storedToken.userId
      let refreshToken := env.generate
      (.ok { accessToken := accessToken, refreshToken := refreshToken }, db')

/-- Embeds `AuthService.requestPasswordReset`: signs `{email, id}` under the
derived secret `JWT_SECRET + user.password` with the configured
reset-token lifetime and returns the token (embedded in the logged reset
link; delivery is out of scope). -/
def requestPasswordReset (env : Env) (email : String) (db : DB) :
    Except HttpError ResetToken × DB :=
  match DB.getByEmail email db with
  | none => (.error (NotFoundError "User not found"), db)
  | some user =>
    let secret := env.jwtSecret ++ user.password
    let token : ResetToken :=
      { email := user.email, id := user.id, secret := secret,
        expiresAt := env.now + env.resetExpiresIn }
    (.ok token, db)

/-- Embeds `Decrypter.decrypt(token, secret)` (`jwt.verify`): succeeds exactly
when the verification secret matches the signing secret and the token is
not expired; any failure throws. -/
def decryptReset (t : ResetToken) (secret : String) (now : Int) : Bool :=
  secret = t.secret && now < t.expiresAt

/-- Embeds `AuthService.resetPassword`.  `decoder.decode` reads the payload
without verifying the signature, so the id hint is `t.id`; the JS guard
`!decoded?.id` also rejects a falsy id, i.e. `0`. -/
def resetPassword (env : Env) (t : ResetToken) (newPassword : String)
    (db : DB) : Except HttpError Unit × DB :=
  if t.id = 0 then (.error (UnauthorizedError (some "Invalid token")), db)
  else
    match DB.getById t.id db with
    | none => (.error (NotFoundError "User not found"), db)
    | some user =>
      let secret := env.jwtSecret ++ user.password
      if decryptReset t secret env.now then
        let hashedPassword := env.hash newPassword
        (.ok (), DB.updatePassword user.id hashedPassword db)
      else
        (.error (UnauthorizedError (some "Invalid token")), db)

end AuthCore

namespace AuthCore

/-- Left cancellation for string concatenation: used to show that the two
derived reset-token secrets differ exactly when the password hashes do. -/
theorem string_append_left_cancel {s a b : String} (h : s ++ a = s ++ b) :
    a = b := by
  have hd : (s ++ a).data = (s ++ b).data := by rw [h]
  simp only [String.data_append] at hd
  exact String.ext (List.append_cancel_left hd)

/-- Concrete collaborator environment used by the witnesses. -/
def envW : Env where
  hash := fun s => "h_" ++ s
  compare := fun p h => h == "h_" ++ p
  encryptAccess := fun n => "acc_" ++ toString n
  generate := "rt_new"
  now := 1000
  jwtSecret := "srv_"
  refreshExpires := 700
  resetExpiresIn := 300
  freshUserId := 7
  freshTokenId := 42

/-- Concrete stored user for the witnesses. -/
def aliceW : User where
  id := 1
  email := "a@x.com"
  password := "h_p1"
  name := "A"

/-- Concrete refresh-token record (valid) for the witnesses. -/
def stW : RefreshTokenRecord where
  id := 10
  token := "rt_old"
  userId := 1
  expiresAt := 2000
  revoked := false

/-- Concrete refresh-token record (expired) for the witnesses. -/
def stExpW : RefreshTokenRecord where
  id := 11
  token := "rt_exp"
  userId := 1
  expiresAt := 500
  revoked := false

/-- Concrete database for the witnesses. -/
def dbW : DB where
  users := [aliceW]
  tokens := [stW, stExpW,
    { id := 12, token := "rt_rev", userId := 1, expiresAt := 2000,
      revoked := true }]

/-- C6: a sign-up whose email already belongs to a stored user fails with
the BadRequest conflict error and leaves the persistent state exactly as
it was: no user row is created and nothing is written. -/
theorem signUp_duplicate_email_no_write (env : Env) (data : SignUpParams)
    (db : DB) (u : User) (h : DB.getByEmail data.email db = some u) :
    signUp env data db = (.error (BadRequestError "Email is already in use"), db) := by
  simp only [signUp, h]

theorem signUp_duplicate_email_no_write_witness :
    signUp envW { email := "a@x.com", password := "p1", confirmPassword := "p1",
                  name := "A" } dbW =
      (.error (BadRequestError "Email is already in use"), dbW) :=
  signUp_duplicate_email_no_write envW _ dbW aliceW (by decide)

/-- C7: a sign-up with a fresh email hashes the password, persists a user
row whose password field is the hashed value (and which has no
confirmation field: the `User` row has only id, email, password, name),
and returns that row; whenever the hash differs from the plaintext, the
stored and returned password is not the plaintext. -/
theorem signUp_persists_hashed_password (env : Env) (data : SignUpParams)
    (db : DB) (h : DB.getByEmail data.email db = none) :
    signUp env data db =
      (.ok { id := env.freshUserId, email := data.email,
             password := env.hash data.password, name := data.name },
       { db with users := db.users ++
          [{ id := env.freshUserId, email := data.email,
             password := env.hash data.password, name := data.name }] }) ∧
    (env.hash data.password ≠ data.password →
      ∀ u, (signUp env data db).1 = .ok u → u.password ≠ data.password) := by
  constructor
  · simp only [signUp, h, DB.createUser]
  · intro hne u hu
    simp only [signUp, h, DB.createUser] at hu
    cases hu
    exact hne

theorem signUp_persists_hashed_password_witness :
    signUp envW { email := "b@x.com", password := "p2", confirmPassword := "p2",
                  name := "B" } dbW =
      (.ok { id := envW.freshUserId, email := "b@x.com",
             password := envW.hash "p2", name := "B" },
       { dbW with users := dbW.users ++
          [{ id := envW.freshUserId, email := "b@x.com",
             password := envW.hash "p2", name := "B" }] }) ∧
    envW.hash "p2" ≠ "p2" :=
  ⟨(signUp_persists_hashed_password envW
      { email := "b@x.com", password := "p2", confirmPassword := "p2",
        name := "B" } dbW (by decide)).1,
   by decide⟩

/-- C4: a login whose email matches no stored user and a login whose
email matches a user but whose password fails the hash comparison both
fail with the literally identical error value — the no-argument
`UnauthorizedError()` of `http-errors`, i.e. status 401 with the default
message `'Unauthorized'` in both cases — and leave the state unchanged,
so the two failure causes are indistinguishable to the caller. -/
theorem login_invalid_uniform_unauthorized (env : Env) (data : LoginParams)
    (db : DB) :
    (DB.getByEmail data.email db = none →
      login env data db = (.error (UnauthorizedError none), db)) ∧
    (∀ u, DB.getByEmail data.email db = some u →
      env.compare data.password u.password = false →
      login env data db = (.error (UnauthorizedError none), db)) ∧
    UnauthorizedError none = { statusCode := 401, message := "Unauthorized" } := by
  refine ⟨?_, ?_, rfl⟩
  · intro h
    simp only [login, h]
  · intro u hu hc
    simp only [login, hu, hc]
    simp

theorem login_invalid_uniform_unauthorized_witness :
    login envW { email := "missing@x.com", password := "p1" } dbW =
      (.error (UnauthorizedError none), dbW) ∧
    login envW { email := "a@x.com", password := "wrong" } dbW =
      (.error (UnauthorizedError none), dbW) ∧
    UnauthorizedError none = { statusCode := 401, message := "Unauthorized" } :=
  ⟨(login_invalid_uniform_unauthorized envW
      { email := "missing@x.com", password := "p1" } dbW).1 (by decide),
   (login_invalid_uniform_unauthorized envW
      { email := "a@x.com", password := "wrong" } dbW).2.1 aliceW (by decide)
      (by decide),
   (login_invalid_uniform_unauthorized envW
      { email := "missing@x.com", password := "p1" } dbW).2.2⟩

/-- C5: a login with matching email and passing hash comparison returns
the access token signed over the user's id, the freshly generated opaque
refresh token, and the stored user with the password field stripped; the
refresh token is persisted as a refresh-token record for that user in the
returned state. -/
theorem login_success_contract (env : Env) (data : LoginParams) (db : DB)
    (u : User) (hu : DB.getByEmail data.email db = some u)
    (hc : env.compare data.password u.password = true) :
    login env data db =
      (.ok { accessToken := env.encryptAccess u.id,
             refreshToken := env.generate,
             user := { id := u.id, email := u.email, name := u.name } },
       DB.saveRefreshToken env.generate u.id env db) ∧
    { id := env.freshTokenId, token := env.generate, userId := u.id,
      expiresAt := env.now + env.refreshExpires,
      revoked := false } ∈ (login env data db).2.tokens := by
  have hmain : login env data db =
      (.ok { accessToken := env.encryptAccess u.id,
             refreshToken := env.generate,
             user := { id := u.id, email := u.email, name := u.name } },
       DB.saveRefreshToken env.generate u.id env db) := by
    simp only [login, hu, hc]
    simp
  refine ⟨hmain, ?_⟩
  rw [hmain]
  simp [DB.saveRefreshToken]

theorem login_success_contract_witness :
    login envW { email := "a@x.com", password := "p1" } dbW =
      (.ok { accessToken := envW.encryptAccess aliceW.id,
             refreshToken := envW.generate,
             user := { id := aliceW.id, email := aliceW.email,
                       name := aliceW.name } },
       DB.saveRefreshToken envW.generate aliceW.id envW dbW) ∧
    { id := envW.freshTokenId, token := envW.generate, userId := aliceW.id,
      expiresAt := envW.now + envW.refreshExpires,
      revoked := false } ∈ (login envW { email := "a@x.com", password := "p1" } dbW).2.tokens :=
  login_success_contract envW { email := "a@x.com", password := "p1" } dbW
    aliceW (by decide) (by decide)

end AuthCore

namespace AuthCore

/-- Revoking a user's tokens never changes a row's `token` string. -/
theorem revoke_preserves_token (userId : Nat) (r : RefreshTokenRecord) :
    ((if r.userId = userId ∧ r.revoked = false then { r with revoked := true }
      else r) : RefreshTokenRecord).token = r.token := by
  split <;> rfl

/-- The valid-refresh branch in one equation: found, unrevoked, unexpired
record gives the new token pair and the bulk-revoked state. -/
theorem refreshAccessToken_valid_eq (env : Env) (tok : String) (db : DB)
    (st : RefreshTokenRecord)
    (hfind : DB.getRefreshTokenWithUser tok db = some st)
    (hrev : st.revoked = false)
    (hexp : ¬ st.expiresAt < env.now) :
    refreshAccessToken env tok db =
      (.ok { accessToken := env.encryptAccess st.userId,
             refreshToken := env.generate },
       DB.revokeAllUserRefreshTokens st.userId db) := by
  simp only [refreshAccessToken, hfind, hrev, hexp]
  simp

/-- C1: a refresh with a found, unrevoked, unexpired record succeeds and
the final state has every refresh-token record of that record's owning
user revoked — the previously unrevoked ones (including the record just
used) were set to revoked, and the already revoked ones stay revoked. -/
theorem refreshAccessToken_valid_revokes_all (env : Env) (tok : String)
    (db : DB) (st : RefreshTokenRecord)
    (hfind : DB.getRefreshTokenWithUser tok db = some st)
    (hrev : st.revoked = false)
    (hexp : ¬ st.expiresAt < env.now) :
    (refreshAccessToken env tok db).1 =
      .ok { accessToken := env.encryptAccess st.userId,
            refreshToken := env.generate } ∧
    ∀ r ∈ (refreshAccessToken env tok db).2.tokens,
      r.userId = st.userId → r.revoked = true := by
  rw [refreshAccessToken_valid_eq env tok db st hfind hrev hexp]
  refine ⟨rfl, ?_⟩
  intro r hr hru
  simp only [DB.revokeAllUserRefreshTokens, List.mem_map] at hr
  obtain ⟨r0, _, rfl⟩ := hr
  by_cases hc : r0.userId = st.userId ∧ r0.revoked = false
  · simp [hc]
  · simp only [if_neg hc] at hru ⊢
    rcases Bool.eq_false_or_eq_true r0.revoked with hb | hb
    · exact hb
    · exact absurd ⟨hru, hb⟩ hc

theorem refreshAccessToken_valid_revokes_all_witness :
    (refreshAccessToken envW "rt_old" dbW).1 =
      .ok { accessToken := envW.encryptAccess stW.userId,
            refreshToken := envW.generate } ∧
    ∀ r ∈ (refreshAccessToken envW "rt_old" dbW).2.tokens,
      r.userId = stW.userId → r.revoked = true :=
  refreshAccessToken_valid_revokes_all envW "rt_old" dbW stW (by decide)
    (by decide) (by decide)

/-- C2: a successful refresh does not persist the newly generated refresh
token: the final state is exactly the bulk revocation of the user's
records, so — the generator producing a string distinct from every stored
token — no record exists for the returned token, and a subsequent refresh
with it (under any collaborators) fails with the default Unauthorized
error via the not-found branch. -/
theorem refreshAccessToken_new_token_not_persisted (env : Env) (tok : String)
    (db : DB) (st : RefreshTokenRecord)
    (hfind : DB.getRefreshTokenWithUser tok db = some st)
    (hrev : st.revoked = false)
    (hexp : ¬ st.expiresAt < env.now)
    (hfresh : ∀ r ∈ db.tokens, r.token ≠ env.generate) :
    (refreshAccessToken env tok db).1 =
      .ok { accessToken := env.encryptAccess st.userId,
            refreshToken := env.generate } ∧
    (refreshAccessToken env tok db).2 =
      DB.revokeAllUserRefreshTokens st.userId db ∧
    DB.getRefreshTokenWithUser env.generate (refreshAccessToken env tok db).2 =
      none ∧
    ∀ env2, (refreshAccessToken env2 env.generate
      (refreshAccessToken env tok db).2).1 = .error (UnauthorizedError none) := by
  rw [refreshAccessToken_valid_eq env tok db st hfind hrev hexp]
  have hnone : DB.getRefreshTokenWithUser env.generate
      (DB.revokeAllUserRefreshTokens st.userId db) = none := by
    simp only [DB.getRefreshTokenWithUser, DB.revokeAllUserRefreshTokens,
      List.find?_eq_none]
    intro x hx
    simp only [List.mem_map] at hx
    obtain ⟨r0, hr0, rfl⟩ := hx
    rw [revoke_preserves_token]
    simp only [decide_eq_true_eq]
    exact hfresh r0 hr0
  refine ⟨rfl, rfl, hnone, ?_⟩
  intro env2
  simp only [refreshAccessToken, hnone]

theorem refreshAccessToken_new_token_not_persisted_witness :
    (refreshAccessToken envW "rt_old" dbW).1 =
      .ok { accessToken := envW.encryptAccess stW.userId,
            refreshToken := envW.generate } ∧
    (refreshAccessToken envW "rt_old" dbW).2 =
      DB.revokeAllUserRefreshTokens stW.userId dbW ∧
    DB.getRefreshTokenWithUser envW.generate
      (refreshAccessToken envW "rt_old" dbW).2 = none ∧
    ∀ env2, (refreshAccessToken env2 envW.generate
      (refreshAccessToken envW "rt_old" dbW).2).1 =
        .error (UnauthorizedError none) :=
  refreshAccessToken_new_token_not_persisted envW "rt_old" dbW stW (by decide)
    (by decide) (by decide) (by decide)

/-- C3: a refresh with a found, unrevoked but expired record deletes that
record and fails with the default Unauthorized error; with tokens unique
in the store, the token string is no longer retrievable afterwards, so a
second refresh with the same string (under any collaborators) also fails
with Unauthorized, now via the not-found branch. -/
theorem refreshAccessToken_expired_deletes_then_rejects (env : Env)
    (tok : String) (db : DB) (st : RefreshTokenRecord)
    (hfind : DB.getRefreshTokenWithUser tok db = some st)
    (hrev : st.revoked = false)
    (hexp : st.expiresAt < env.now)
    (huniq : ∀ r ∈ db.tokens, r.token = tok → r.id = st.id) :
    refreshAccessToken env tok db =
      (.error (UnauthorizedError none), DB.deleteRefreshToken st.id db) ∧
    DB.getRefreshTokenWithUser tok (DB.deleteRefreshToken st.id db) = none ∧
    ∀ env2, (refreshAccessToken env2 tok
      (DB.deleteRefreshToken st.id db)).1 = .error (UnauthorizedError none) := by
  have hnone : DB.getRefreshTokenWithUser tok
      (DB.deleteRefreshToken st.id db) = none := by
    simp only [DB.getRefreshTokenWithUser, DB.deleteRefreshToken,
      List.find?_eq_none]
    intro x hx
    simp only [List.mem_filter] at hx
    obtain ⟨hx1, hx2⟩ := hx
    simp only [decide_eq_true_eq] at hx2 ⊢
    intro htok
    exact hx2 (huniq x hx1 htok)
  refine ⟨?_, hnone, ?_⟩
  · simp only [refreshAccessToken, hfind, hrev, hexp]
    simp
  · intro env2
    simp only [refreshAccessToken, hnone]

theorem refreshAccessToken_expired_deletes_then_rejects_witness :
    refreshAccessToken envW "rt_exp" dbW =
      (.error (UnauthorizedError none), DB.deleteRefreshToken stExpW.id dbW) ∧
    DB.getRefreshTokenWithUser "rt_exp" (DB.deleteRefreshToken stExpW.id dbW) =
      none ∧
    ∀ env2, (refreshAccessToken env2 "rt_exp"
      (DB.deleteRefreshToken stExpW.id dbW)).1 = .error (UnauthorizedError none) :=
  refreshAccessToken_expired_deletes_then_rejects envW "rt_exp" dbW stExpW
    (by decide) (by decide) (by decide) (by decide)

end AuthCore

namespace AuthCore

/-- The outcome of a refresh depends only on the refresh-token table (and
the collaborators), not on the user table. -/
theorem refreshAccessToken_fst_depends_only_on_tokens (env : Env)
    (tok : String) (db1 db2 : DB) (h : db1.tokens = db2.tokens) :
    (refreshAccessToken env tok db1).1 = (refreshAccessToken env tok db2).1 := by
  simp only [refreshAccessToken, DB.getRefreshTokenWithUser, h]
  cases hfind : List.find? (fun r => decide (r.token = tok)) db2.tokens with
  | none => simp only [hfind]
  | some st =>
    simp only [hfind]
    by_cases h1 : st.revoked = true
    · simp [h1]
    · simp only [if_neg h1]
      by_cases h2 : st.expiresAt < env.now
      · simp [h2]
      · simp [h2]

/-- C9: a reset whose decoded id names a stored user but whose token
fails verification against the derived secret — for any reason: wrong
signing secret (bad signature / tampered payload / password since
changed) or expiry — fails with the single uniform Unauthorized
"Invalid token" error and leaves the state untouched: the hash-and-update
step is not reached. -/
theorem resetPassword_verify_failure_uniform (env : Env) (t : ResetToken)
    (newPassword : String) (db : DB) (user : User)
    (hid : t.id ≠ 0)
    (hu : DB.getById t.id db = some user)
    (hv : decryptReset t (env.jwtSecret ++ user.password) env.now = false) :
    resetPassword env t newPassword db =
      (.error (UnauthorizedError (some "Invalid token")), db) := by
  simp only [resetPassword, if_neg hid, hu, hv]
  simp

theorem resetPassword_verify_failure_uniform_witness :
    resetPassword envW { email := "a@x.com", id := 1, secret := "badsecret",
                         expiresAt := 2000 } "np" dbW =
      (.error (UnauthorizedError (some "Invalid token")), dbW) :=
  resetPassword_verify_failure_uniform envW
    { email := "a@x.com", id := 1, secret := "badsecret", expiresAt := 2000 }
    "np" dbW aliceW (by decide) (by decide) (by decide)

/-- C8: `requestPasswordReset` signs the reset token under the derived
secret `JWT_SECRET + (current password hash)`, and `resetPassword`
verifies against the same derivation over the now-current hash; hence a
token signed while the stored hash was `u.password` fails verification
(uniform Unauthorized "Invalid token") once the stored hash for that id
has changed to any different value. -/
theorem resetToken_stale_after_password_change (env env2 : Env)
    (email newPassword : String) (db1 db2 : DB) (u u2 : User)
    (tok : ResetToken)
    (h1 : DB.getByEmail email db1 = some u)
    (htok : (requestPasswordReset env email db1).1 = .ok tok)
    (hsec : env2.jwtSecret = env.jwtSecret)
    (h2 : DB.getById tok.id db2 = some u2)
    (hpw : u2.password ≠ u.password)
    (hid : tok.id ≠ 0) :
    tok.secret = env.jwtSecret ++ u.password ∧
    resetPassword env2 tok newPassword db2 =
      (.error (UnauthorizedError (some "Invalid token")), db2) := by
  have htok' : tok =
      { email := u.email, id := u.id,
        secret := env.jwtSecret ++ u.password,
        expiresAt := env.now + env.resetExpiresIn } := by
    simp only [requestPasswordReset, h1, Except.ok.injEq] at htok
    exact htok.symm
  have hne : env2.jwtSecret ++ u2.password ≠ tok.secret := by
    rw [htok', hsec]
    intro hcontra
    exact hpw (string_append_left_cancel hcontra)
  have hv : decryptReset tok (env2.jwtSecret ++ u2.password) env2.now = false := by
    simp [decryptReset, hne]
  exact ⟨by rw [htok'],
    resetPassword_verify_failure_uniform env2 tok newPassword db2 u2 hid h2 hv⟩

/-- Concrete stale reset token (signed over the old hash) for the C8
witness. -/
def tokStaleW : ResetToken where
  email := "a@x.com"
  id := 1
  secret := "srv_h_p1"
  expiresAt := 1300

/-- Concrete user after a password change for the C8 witness. -/
def alice2W : User where
  id := 1
  email := "a@x.com"
  password := "h_p9"
  name := "A"

/-- Concrete database after a password change for the C8 witness. -/
def db2W : DB where
  users := [alice2W]
  tokens := dbW.tokens

theorem resetToken_stale_after_password_change_witness :
    tokStaleW.secret = envW.jwtSecret ++ aliceW.password ∧
    resetPassword envW tokStaleW "np" db2W =
      (.error (UnauthorizedError (some "Invalid token")), db2W) :=
  resetToken_stale_after_password_change envW envW "a@x.com" "np" dbW db2W
    aliceW alice2W tokStaleW (by decide) rfl rfl (by decide)
    (by decide) (by decide)

/-- C10: a successful reset's only persistent mutation is that user's
password field: the refresh-token table is unchanged, every other user
row is untouched, and any refresh call observes the same outcome on the
new state as on the old, so refresh sessions issued before the reset
remain exactly as usable after it. -/
theorem resetPassword_success_frame (env : Env) (t : ResetToken)
    (newPassword : String) (db : DB) (user : User)
    (hid : t.id ≠ 0)
    (hu : DB.getById t.id db = some user)
    (hv : decryptReset t (env.jwtSecret ++ user.password) env.now = true) :
    resetPassword env t newPassword db =
      (.ok (), DB.updatePassword user.id (env.hash newPassword) db) ∧
    (resetPassword env t newPassword db).2.tokens = db.tokens ∧
    (∀ u2 ∈ db.users, u2.id ≠ user.id →
      u2 ∈ (resetPassword env t newPassword db).2.users) ∧
    ∀ env2 tok2,
      (refreshAccessToken env2 tok2 (resetPassword env t newPassword db).2).1 =
        (refreshAccessToken env2 tok2 db).1 := by
  have hmain : resetPassword env t newPassword db =
      (.ok (), DB.updatePassword user.id (env.hash newPassword) db) := by
    simp only [resetPassword, if_neg hid, hu, hv]
    simp
  rw [hmain]
  refine ⟨rfl, rfl, ?_, ?_⟩
  · intro u2 hu2 hne
    simp only [DB.updatePassword, List.mem_map]
    exact ⟨u2, hu2, by simp [if_neg hne]⟩
  · intro env2 tok2
    exact refreshAccessToken_fst_depends_only_on_tokens env2 tok2 _ db rfl

/-- Concrete valid reset token for the C10 witness. -/
def tokGoodW : ResetToken where
  email := "a@x.com"
  id := 1
  secret := "srv_h_p1"
  expiresAt := 2000

theorem resetPassword_success_frame_witness :
    resetPassword envW tokGoodW "np" dbW =
      (.ok (), DB.updatePassword aliceW.id (envW.hash "np") dbW) ∧
    (resetPassword envW tokGoodW "np" dbW).2.tokens = dbW.tokens ∧
    (∀ u2 ∈ dbW.users, u2.id ≠ aliceW.id →
      u2 ∈ (resetPassword envW tokGoodW "np" dbW).2.users) ∧
    ∀ env2 tok2,
      (refreshAccessToken env2 tok2 (resetPassword envW tokGoodW "np" dbW).2).1 =
        (refreshAccessToken env2 tok2 dbW).1 :=
  resetPassword_success_frame envW tokGoodW "np" dbW aliceW (by decide)
    (by decide) (by decide)

end AuthCore
